import Mathlib

/-
Shallow embedding of `src/processor/source_line_resolver_base.cc`
(google-breakpad, class `SourceLineResolverBase`).

Modelling decisions, each tied to the source:

* A C++ `std::string` may contain embedded nul bytes, so strings are
  modelled as lists of byte values (`Bytes := List Nat`).  `c_str` is the
  view `strcmp` actually reads: the bytes before the first nul.
* The module table `modules_` is a `std::map<string, Module*, CompareString>`;
  it is modelled as an association list whose lookup/erase use the
  comparator's equivalence (neither key `CompareString`-less than the other),
  exactly as `std::map::find`/`erase` do.
* The parsed-module type, the stack-frame payload and the two frame-info
  types are external collaborators; the development is parametric in them
  (`ExternalOps`), mirroring the virtual `Module` interface and
  `ModuleFactory::CreateModule`.  `Module::LoadMapFromMemory` mutates the
  module and returns `bool`; it is modelled as an `Option`-returning
  function on the buffer bytes (the documented contract: ownership of the
  buffer is NOT transferred).
* The lifecycle hooks `StoreDataBeforeLoad` / `DeleteDataAfterLoad` /
  `DeleteDataUnload` are no-ops in the base class; what the claims are
  about is *when they are called*, so each operation also returns the list
  of hook invocations (`Event`) it performs, in order.  Calls to the ingest
  routine `LoadMapFromMemory` are recorded in the same trace.
* Heap buffers (`operator new`) are modelled as an id drawn from a counter
  in the resolver state plus their byte contents.  The null-result checks
  after `operator new` in the source are dead code (this non-nothrow form
  of `operator new` throws instead of returning null), so allocation is
  modelled as always succeeding.
* The file system seen by `ReadSymbolFile` (`stat`, `fopen`, `fread`) is a
  parameter `FS`; `fread` asked for `file_size` bytes returns at most that
  many, modelled by `take file_size` of the file's available byte stream,
  which lets the stat size and the bytes actually read disagree.
-/

namespace SourceLineResolverBase

/-- Bytes of a C++ `std::string`; embedded nul (0) bytes are allowed. -/
abbrev Bytes := List Nat

/-- The view of a string that `strcmp(s.c_str(), ...)` reads: the bytes
before the first nul byte. -/
def c_str (s : Bytes) : Bytes := s.takeWhile (fun b => b != 0)

/-- C `strcmp` on the (nul-free) byte sequences denoted by two C strings:
negative, zero or positive according to lexicographic order, with the
string that ends first comparing smaller. -/
def strcmp : Bytes → Bytes → Int
  | [], [] => 0
  | [], _ :: _ => -1
  | _ :: _, [] => 1
  | a :: as, b :: bs => if a < b then -1 else if b < a then 1 else strcmp as bs

/-- `SourceLineResolverBase::CompareString::operator()`:
`strcmp(s1.c_str(), s2.c_str()) < 0`. -/
def CompareString (s1 s2 : Bytes) : Bool :=
  decide (strcmp ( c_str s1) ( c_str s2) < 0)

/-- Key equivalence induced by the `CompareString` comparator, as used by
`std::map::find`/`erase`: neither key is strictly less than the other. -/
def keyEquiv (a b : Bytes) : Bool :=
  !CompareString a b && !CompareString b a

/-- External code-module identity (`CodeModule`); the resolver only ever
reads `code_file()`. -/
structure CodeModule where
  code_file : Bytes
deriving DecidableEq

/-- External stack frame: the resolver reads `frame->module` and passes the
frame through to the module's lookup; every other field is the opaque
payload `fields` of type `E`. -/
structure StackFrame (E : Type) where
  module : Option CodeModule
  fields : E
deriving DecidableEq

/-- A heap buffer allocated with `operator new`: an allocation id and the
byte contents, including the trailing nul written by the loader. -/
structure Buffer where
  id : Nat
  data : List Nat
deriving DecidableEq

/-- One invocation of a lifecycle hook, or of the ingest routine
`Module::LoadMapFromMemory`, recorded in program order. -/
inductive Event where
  | storeDataBeforeLoad : Option CodeModule → Nat → List Nat → Event
  | deleteDataAfterLoad : Nat → List Nat → Event
  | loadMapFromMemory : Nat → List Nat → Event
  | deleteDataUnload : CodeModule → Event
deriving DecidableEq

/-- The external collaborators: the module factory and the virtual
`Module` interface (`LoadMapFromMemory`, `LookupAddress`,
`FindWindowsFrameInfo`, `FindCFIFrameInfo`).  `LoadMapFromMemory` returns
the loaded module on success and `none` on ingest failure. -/
structure ExternalOps (Mod E W C : Type) where
  CreateModule : Bytes → Mod
  LoadMapFromMemory : Mod → List Nat → Option Mod
  LookupAddress : Mod → StackFrame E → StackFrame E
  FindWindowsFrameInfo : Mod → StackFrame E → Option W
  FindCFIFrameInfo : Mod → StackFrame E → Option C

/-- Resolver state: the module table `modules_` plus the allocation counter
for heap buffers. -/
structure Resolver (Mod : Type) where
  modules_ : List (Bytes × Mod)
  nextBufId : Nat
deriving DecidableEq

/-- `std::map::find` under the `CompareString` comparator: first entry whose
key is comparator-equivalent to `k`. -/
def mapFind {Mod : Type} (m : List (Bytes × Mod)) (k : Bytes) : Option Mod :=
  match m with
  | [] => none
  | (k0, v) :: rest => if keyEquiv k0 k then some v else mapFind rest k

/-- `std::map::insert`: inserts only when no comparator-equivalent key is
present (in the source, insertion is only reached after `find` failed). -/
def mapInsert {Mod : Type} (m : List (Bytes × Mod)) (k : Bytes) (v : Mod) :
    List (Bytes × Mod) :=
  if (mapFind m k).isSome then m else m ++ [(k, v)]

/-- `modules_->erase(iter)` where `iter = find(k)`: removes the first
comparator-equivalent entry, if any. -/
def mapErase {Mod : Type} (m : List (Bytes × Mod)) (k : Bytes) :
    List (Bytes × Mod) :=
  match m with
  | [] => []
  | (k0, v) :: rest => if keyEquiv k0 k then rest else (k0, v) :: mapErase rest k

/-- The `std::map` representation invariant: no two entries of the
association list have comparator-equivalent keys. -/
def WFmap {Mod : Type} (m : List (Bytes × Mod)) : Prop :=
  m.Pairwise (fun a b => keyEquiv a.1 b.1 = false)

/-- File system as seen by `ReadSymbolFile`: the size `stat` reports
(`none` models a `stat` error), whether `fopen` succeeds, and the byte
stream available to `fread`. -/
structure FS where
  statSize : Bytes → Option Nat
  fopenOk : Bytes → Bool
  readData : Bytes → List Nat

/-- `SourceLineResolverBase::ReadSymbolFile`, lines 82-141: `stat` the file,
allocate `file_size + 1` bytes, `fopen`, `fread` up to `file_size` bytes,
fail on a short read, and write a nul terminator at index `file_size`.
The `symbol_data == NULL` argument check and the null test after
`operator new` concern pointers that are never null on the call paths
modelled here.  Returns the buffer contents, or `none` for `false`. -/
def ReadSymbolFile (fs : FS) (map_file : Bytes) : Option (List Nat) :=
  match fs.statSize map_file with
  | none => none
  | some file_size =>
    if fs.fopenOk map_file then
      let contents := (fs.readData map_file).take file_size
      if contents.length ≠ file_size then none
      else some (contents ++ [0])
    else none

/-- `SourceLineResolverBase::LoadModuleUsingMemoryBuffer`, lines 187-218:
on a null module or a duplicate key, call `DeleteDataAfterLoad` and fail;
otherwise create a module via the factory, ingest the buffer
(`LoadMapFromMemory`, recorded in the trace), delete the half-built module
on ingest failure, insert into the table on success, and call
`DeleteDataAfterLoad` on every path.  Returns (result, state, trace). -/
def LoadModuleUsingMemoryBuffer {Mod E W C : Type} (ops : ExternalOps Mod E W C)
    (st : Resolver Mod) (module : Option CodeModule) (buf : Buffer) :
    Bool × Resolver Mod × List Event :=
  match module with
  | none => (false, st, [Event.deleteDataAfterLoad buf.id buf.data])
  | some m =>
    if (mapFind st.modules_ m.code_file).isSome then
      (false, st, [Event.deleteDataAfterLoad buf.id buf.data])
    else
      match ops.LoadMapFromMemory (ops.CreateModule m.code_file) buf.data with
      | none =>
        (false, st,
         [Event.loadMapFromMemory buf.id buf.data,
          Event.deleteDataAfterLoad buf.id buf.data])
      | some loaded =>
        (true,
         { st with modules_ := mapInsert st.modules_ m.code_file loaded },
         [Event.loadMapFromMemory buf.id buf.data,
          Event.deleteDataAfterLoad buf.id buf.data])

/-- `SourceLineResolverBase::LoadModuleUsingMapBuffer`, lines 170-185:
allocate `size + 1` bytes, `memcpy` the whole string (embedded nuls
included) and write a trailing nul, call `StoreDataBeforeLoad`, then
delegate to `LoadModuleUsingMemoryBuffer`.  The null test after
`operator new` is dead code (this form of `operator new` throws). -/
def LoadModuleUsingMapBuffer {Mod E W C : Type} (ops : ExternalOps Mod E W C)
    (st : Resolver Mod) (module : Option CodeModule) (map_buffer : Bytes) :
    Bool × Resolver Mod × List Event :=
  let buf : Buffer := ⟨st.nextBufId, map_buffer ++ [0]⟩
  let st1 : Resolver Mod := { st with nextBufId := st.nextBufId + 1 }
  let r := LoadModuleUsingMemoryBuffer ops st1 module buf
  (r.1, r.2.1, Event.storeDataBeforeLoad module buf.id buf.data :: r.2.2)

/-- `SourceLineResolverBase::LoadModule`, lines 143-168: fail on a null
module; fail early (no file read, no hooks) on a duplicate key; read the
symbol file; on read success call `StoreDataBeforeLoad` and delegate to
`LoadModuleUsingMemoryBuffer`. -/
def LoadModule {Mod E W C : Type} (ops : ExternalOps Mod E W C) (fs : FS)
    (st : Resolver Mod) (module : Option CodeModule) (map_file : Bytes) :
    Bool × Resolver Mod × List Event :=
  match module with
  | none => (false, st, [])
  | some m =>
    if (mapFind st.modules_ m.code_file).isSome then
      (false, st, [])
    else
      match ReadSymbolFile fs map_file with
      | none => (false, st, [])
      | some data =>
        let buf : Buffer := ⟨st.nextBufId, data⟩
        let st1 : Resolver Mod := { st with nextBufId := st.nextBufId + 1 }
        let r := LoadModuleUsingMemoryBuffer ops st1 (some m) buf
        (r.1, r.2.1, Event.storeDataBeforeLoad (some m) buf.id buf.data :: r.2.2)

/-- `SourceLineResolverBase::UnloadModule`, lines 220-232: no-op on a null
module; otherwise erase the table entry if the key is found, and call
`DeleteDataUnload(code_module)` unconditionally. -/
def UnloadModule {Mod : Type} (st : Resolver Mod) (code_module : Option CodeModule) :
    Resolver Mod × List Event :=
  match code_module with
  | none => (st, [])
  | some m =>
    let st1 :=
      if (mapFind st.modules_ m.code_file).isSome then
        { st with modules_ := mapErase st.modules_ m.code_file }
      else st
    (st1, [Event.deleteDataUnload m])

/-- `SourceLineResolverBase::HasModule`, lines 234-238. -/
def HasModule {Mod : Type} (st : Resolver Mod) (module : Option CodeModule) : Bool :=
  match module with
  | none => false
  | some m => (mapFind st.modules_ m.code_file).isSome

/-- `SourceLineResolverBase::FillSourceLineInfo`, lines 240-247, on a
non-null frame: if the frame's module is present in the table, delegate to
`Module::LookupAddress` (which may rewrite the frame); otherwise leave the
frame untouched. -/
def FillSourceLineInfo {Mod E W C : Type} (ops : ExternalOps Mod E W C)
    (st : Resolver Mod) (frame : StackFrame E) : StackFrame E :=
  match frame.module with
  | some m =>
    match mapFind st.modules_ m.code_file with
    | some it => ops.LookupAddress it frame
    | none => frame
  | none => frame

/-- `SourceLineResolverBase::FindWindowsFrameInfo`, lines 249-258, on a
non-null frame. -/
def FindWindowsFrameInfo {Mod E W C : Type} (ops : ExternalOps Mod E W C)
    (st : Resolver Mod) (frame : StackFrame E) : Option W :=
  match frame.module with
  | some m =>
    match mapFind st.modules_ m.code_file with
    | some it => ops.FindWindowsFrameInfo it frame
    | none => none
  | none => none

/-- `SourceLineResolverBase::FindCFIFrameInfo`, lines 260-269, on a
non-null frame. -/
def FindCFIFrameInfo {Mod E W C : Type} (ops : ExternalOps Mod E W C)
    (st : Resolver Mod) (frame : StackFrame E) : Option C :=
  match frame.module with
  | some m =>
    match mapFind st.modules_ m.code_file with
    | some it => ops.FindCFIFrameInfo it frame
    | none => none
  | none => none

/-- Pointer-level `FillSourceLineInfo`: the source (line 241) dereferences
`frame->module` without a null check on `frame` itself, so a null frame
pointer is undefined behaviour, modelled as the outer `none` ("does not
complete"); `some r` means the call completed with result `r`. -/
def FillSourceLineInfoP {Mod E W C : Type} (ops : ExternalOps Mod E W C)
    (st : Resolver Mod) (frame : Option (StackFrame E)) : Option (StackFrame E) :=
  match frame with
  | none => none
  | some f => some (FillSourceLineInfo ops st f)

/-- Pointer-level `FindWindowsFrameInfo`: same null-dereference modelling as
`FillSourceLineInfoP`; `some r` means the call completed with result `r`. -/
def FindWindowsFrameInfoP {Mod E W C : Type} (ops : ExternalOps Mod E W C)
    (st : Resolver Mod) (frame : Option (StackFrame E)) : Option (Option W) :=
  match frame with
  | none => none
  | some f => some (FindWindowsFrameInfo ops st f)

/-- Pointer-level `FindCFIFrameInfo`: same null-dereference modelling as
`FillSourceLineInfoP`; `some r` means the call completed with result `r`. -/
def FindCFIFrameInfoP {Mod E W C : Type} (ops : ExternalOps Mod E W C)
    (st : Resolver Mod) (frame : Option (StackFrame E)) : Option (Option C) :=
  match frame with
  | none => none
  | some f => some (FindCFIFrameInfo ops st f)

/-- Number of `StoreDataBeforeLoad` invocations on buffer `bid` in a trace. -/
def countStore (tr : List Event) (bid : Nat) : Nat :=
  (tr.filter (fun e =>
    match e with
    | Event.storeDataBeforeLoad _ i _ => i == bid
    | _ => false)).length

/-- Number of `DeleteDataAfterLoad` invocations on buffer `bid` in a trace. -/
def countDelete (tr : List Event) (bid : Nat) : Nat :=
  (tr.filter (fun e =>
    match e with
    | Event.deleteDataAfterLoad i _ => i == bid
    | _ => false)).length

/-- The byte contents of every buffer handed to the ingest routine
`Module::LoadMapFromMemory` in a trace, in order. -/
def ingestBuffers (tr : List Event) : List (List Nat) :=
  tr.filterMap (fun e =>
    match e with
    | Event.loadMapFromMemory _ d => some d
    | _ => none)

/-- A concrete backend used to evaluate the development on closed inputs:
a module remembers the bytes it ingested, ingest succeeds exactly when the
buffer starts with byte 77, and lookup stores the module's size in the
frame payload. -/
def demoOps : ExternalOps (List Nat) Nat Nat Nat where
  CreateModule := fun _ => []
  LoadMapFromMemory := fun _ data => if data.head? = some 77 then some data else none
  LookupAddress := fun md frame => { frame with fields := md.length }
  FindWindowsFrameInfo := fun _ _ => some 1
  FindCFIFrameInfo := fun _ _ => some 2

/-- A concrete file system: path `[1]` is a 3-byte file read in full; path
`[2]` has `stat` size 5 but only 2 bytes are actually readable (short
read); every other path fails to `stat`. -/
def demoFS : FS where
  statSize := fun f => if f = [1] then some 3 else if f = [2] then some 5 else none
  fopenOk := fun _ => true
  readData := fun f => if f = [1] then [77, 10, 11] else if f = [2] then [77, 10] else []

lemma strcmp_self (x : Bytes) : strcmp x x = 0 := by
  induction x with
  | nil => rfl
  | cons a as ih => simp [strcmp, ih]

lemma strcmp_trichotomy (x y : Bytes) : x = y ∨ strcmp x y < 0 ∨ strcmp y x < 0 := by
  induction x generalizing y with
  | nil =>
    cases y with
    | nil => exact Or.inl rfl
    | cons b bs => exact Or.inr (Or.inl (by simp [strcmp]))
  | cons a as ih =>
    cases y with
    | nil => exact Or.inr (Or.inr (by simp [strcmp]))
    | cons b bs =>
      rcases Nat.lt_trichotomy a b with hab | hab | hab
      · exact Or.inr (Or.inl (by simp [strcmp, hab]))
      · subst hab
        rcases ih bs with h | h | h
        · exact Or.inl (by rw [h])
        · exact Or.inr (Or.inl (by simpa [strcmp] using h))
        · exact Or.inr (Or.inr (by simpa [strcmp] using h))
      · exact Or.inr (Or.inr (by simp [strcmp, hab, Nat.lt_asymm hab]))

lemma keyEquiv_eq_true_iff (a b : Bytes) :
    keyEquiv a b = true ↔ c_str a = c_str b := by
  constructor
  · intro h
    simp only [keyEquiv, CompareString, Bool.and_eq_true, Bool.not_eq_true',
      decide_eq_false_iff_not] at h
    rcases strcmp_trichotomy ( c_str a) ( c_str b) with he | hlt | hlt
    · exact he
    · exact absurd hlt h.1
    · exact absurd hlt h.2
  · intro h
    simp [keyEquiv, CompareString, h, strcmp_self]

lemma keyEquiv_eq_decide (a b : Bytes) :
    keyEquiv a b = decide ( c_str a = c_str b) := by
  by_cases h : c_str a = c_str b
  · rw [(keyEquiv_eq_true_iff a b).2 h, decide_eq_true h]
  · rw [decide_eq_false h]
    by_contra hk
    rw [Bool.not_eq_false] at hk
    exact h ((keyEquiv_eq_true_iff a b).1 hk)

lemma mapFind_congr {Mod : Type} (m : List (Bytes × Mod)) {k k' : Bytes}
    (h : c_str k = c_str k') : mapFind m k = mapFind m k' := by
  induction m with
  | nil => rfl
  | cons kv rest ih =>
    obtain ⟨k0, v⟩ := kv
    simp only [mapFind, keyEquiv_eq_decide, h, ih]

lemma mapFind_eq_none_iff {Mod : Type} (m : List (Bytes × Mod)) (k : Bytes) :
    mapFind m k = none ↔ ∀ kv ∈ m, c_str kv.1 ≠ c_str k := by
  induction m with
  | nil => simp [mapFind]
  | cons kv rest ih =>
    obtain ⟨k0, v⟩ := kv
    by_cases h : c_str k0 = c_str k
    · simp [mapFind, keyEquiv_eq_decide, h]
    · simp [mapFind, keyEquiv_eq_decide, h, ih]

lemma mapFind_append_of_none {Mod : Type} {m1 : List (Bytes × Mod)} {k : Bytes}
    (h : mapFind m1 k = none) (m2 : List (Bytes × Mod)) :
    mapFind (m1 ++ m2) k = mapFind m2 k := by
  induction m1 with
  | nil => rfl
  | cons kv rest ih =>
    obtain ⟨k0, v0⟩ := kv
    simp only [mapFind] at h
    by_cases hk : keyEquiv k0 k = true
    · rw [if_pos hk] at h
      exact absurd h (by simp)
    · rw [if_neg hk] at h
      rw [List.cons_append]
      simp only [mapFind]
      rw [if_neg hk]
      exact ih h

lemma mapFind_insert_self {Mod : Type} {m : List (Bytes × Mod)} {k : Bytes} (v : Mod)
    (h : mapFind m k = none) : mapFind (mapInsert m k v) k = some v := by
  rw [mapInsert, h]
  simp only [Option.isSome_none, Bool.false_eq_true, if_false]
  rw [mapFind_append_of_none h]
  simp [mapFind, keyEquiv_eq_decide]

lemma mapErase_of_none {Mod : Type} {m : List (Bytes × Mod)} {k : Bytes}
    (h : mapFind m k = none) : mapErase m k = m := by
  induction m with
  | nil => rfl
  | cons kv rest ih =>
    obtain ⟨k0, v0⟩ := kv
    simp only [mapFind] at h
    by_cases hk : keyEquiv k0 k = true
    · rw [if_pos hk] at h
      exact absurd h (by simp)
    · rw [if_neg hk] at h
      simp only [mapErase]
      rw [if_neg hk, ih h]

lemma mapFind_erase_of_wf {Mod : Type} {m : List (Bytes × Mod)} (hwf : WFmap m)
    {k k' : Bytes} (hk : c_str k = c_str k') :
    mapFind (mapErase m k) k' = none := by
  induction m with
  | nil => rfl
  | cons kv rest ih =>
    obtain ⟨k0, v0⟩ := kv
    rw [WFmap, List.pairwise_cons] at hwf
    obtain ⟨hhead, htail⟩ := hwf
    by_cases h0 : keyEquiv k0 k = true
    · simp only [mapErase, if_pos h0]
      rw [mapFind_eq_none_iff]
      intro kv hmem heq
      have h0c := (keyEquiv_eq_true_iff k0 k).1 h0
      have hkv : keyEquiv k0 kv.1 = true :=
        (keyEquiv_eq_true_iff _ _).2 (by rw [h0c, hk, ← heq])
      have hfalse := hhead kv hmem
      rw [hkv] at hfalse
      exact absurd hfalse (by simp)
    · have h0' : ¬(keyEquiv k0 k' = true) := by
        intro hh
        exact h0 ((keyEquiv_eq_true_iff _ _).2
          (by rw [(keyEquiv_eq_true_iff k0 k').1 hh, ← hk]))
      simp only [mapErase, if_neg h0]
      simp only [mapFind]
      rw [if_neg h0']
      exact ih htail

lemma loadUsingMemoryBuffer_dup {Mod E W C : Type} (ops : ExternalOps Mod E W C)
    (st : Resolver Mod) (m : CodeModule) (buf : Buffer)
    (h : (mapFind st.modules_ m.code_file).isSome = true) :
    LoadModuleUsingMemoryBuffer ops st (some m) buf
      = (false, st, [Event.deleteDataAfterLoad buf.id buf.data]) := by
  simp [LoadModuleUsingMemoryBuffer, h]

lemma loadUsingMemoryBuffer_success {Mod E W C : Type} (ops : ExternalOps Mod E W C)
    (st : Resolver Mod) (m : CodeModule) (buf : Buffer) (loaded : Mod)
    (hfind : mapFind st.modules_ m.code_file = none)
    (hing : ops.LoadMapFromMemory (ops.CreateModule m.code_file) buf.data = some loaded) :
    LoadModuleUsingMemoryBuffer ops st (some m) buf
      = (true, { st with modules_ := mapInsert st.modules_ m.code_file loaded },
         [Event.loadMapFromMemory buf.id buf.data,
          Event.deleteDataAfterLoad buf.id buf.data]) := by
  simp [LoadModuleUsingMemoryBuffer, hfind, hing]

lemma loadUsingMemoryBuffer_ingest_fail {Mod E W C : Type} (ops : ExternalOps Mod E W C)
    (st : Resolver Mod) (m : CodeModule) (buf : Buffer)
    (hfind : mapFind st.modules_ m.code_file = none)
    (hing : ops.LoadMapFromMemory (ops.CreateModule m.code_file) buf.data = none) :
    LoadModuleUsingMemoryBuffer ops st (some m) buf
      = (false, st,
         [Event.loadMapFromMemory buf.id buf.data,
          Event.deleteDataAfterLoad buf.id buf.data]) := by
  simp [LoadModuleUsingMemoryBuffer, hfind, hing]

lemma loadModule_dup {Mod E W C : Type} (ops : ExternalOps Mod E W C) (fs : FS)
    (st : Resolver Mod) (m : CodeModule) (map_file : Bytes)
    (h : (mapFind st.modules_ m.code_file).isSome = true) :
    LoadModule ops fs st (some m) map_file = (false, st, []) := by
  simp [LoadModule, h]

lemma loadMapBuffer_dup {Mod E W C : Type} (ops : ExternalOps Mod E W C)
    (st : Resolver Mod) (m : CodeModule) (map_buffer : Bytes)
    (h : (mapFind st.modules_ m.code_file).isSome = true) :
    LoadModuleUsingMapBuffer ops st (some m) map_buffer
      = (false, { st with nextBufId := st.nextBufId + 1 },
         [Event.storeDataBeforeLoad (some m) st.nextBufId (map_buffer ++ [0]),
          Event.deleteDataAfterLoad st.nextBufId (map_buffer ++ [0])]) := by
  simp [LoadModuleUsingMapBuffer, LoadModuleUsingMemoryBuffer, h]

lemma loadUsingMemoryBuffer_true_find {Mod E W C : Type} (ops : ExternalOps Mod E W C)
    (st : Resolver Mod) (m : CodeModule) (buf : Buffer)
    (h : (LoadModuleUsingMemoryBuffer ops st (some m) buf).1 = true) :
    (mapFind (LoadModuleUsingMemoryBuffer ops st (some m) buf).2.1.modules_
      m.code_file).isSome = true := by
  cases hfind : mapFind st.modules_ m.code_file with
  | some v =>
    have hs : (mapFind st.modules_ m.code_file).isSome = true := by rw [hfind]; rfl
    rw [loadUsingMemoryBuffer_dup ops st m buf hs] at h
    exact absurd h (by simp)
  | none =>
    cases hing : ops.LoadMapFromMemory (ops.CreateModule m.code_file) buf.data with
    | none =>
      rw [loadUsingMemoryBuffer_ingest_fail ops st m buf hfind hing] at h
      exact absurd h (by simp)
    | some loaded =>
      rw [loadUsingMemoryBuffer_success ops st m buf loaded hfind hing]
      simp [mapFind_insert_self loaded hfind]

lemma loadModule_eq {Mod E W C : Type} (ops : ExternalOps Mod E W C) (fs : FS)
    (st : Resolver Mod) (m : CodeModule) (map_file : Bytes) (data : List Nat)
    (hfind : mapFind st.modules_ m.code_file = none)
    (hread : ReadSymbolFile fs map_file = some data) :
    LoadModule ops fs st (some m) map_file
      = ((LoadModuleUsingMemoryBuffer ops { st with nextBufId := st.nextBufId + 1 } (some m)
            ⟨st.nextBufId, data⟩).1,
         (LoadModuleUsingMemoryBuffer ops { st with nextBufId := st.nextBufId + 1 } (some m)
            ⟨st.nextBufId, data⟩).2.1,
         Event.storeDataBeforeLoad (some m) st.nextBufId data ::
           (LoadModuleUsingMemoryBuffer ops { st with nextBufId := st.nextBufId + 1 } (some m)
              ⟨st.nextBufId, data⟩).2.2) := by
  have hs : (mapFind st.modules_ m.code_file).isSome = false := by rw [hfind]; rfl
  simp [LoadModule, hs, hread]

lemma loadModule_true_find {Mod E W C : Type} (ops : ExternalOps Mod E W C) (fs : FS)
    (st : Resolver Mod) (m : CodeModule) (map_file : Bytes)
    (h : (LoadModule ops fs st (some m) map_file).1 = true) :
    (mapFind (LoadModule ops fs st (some m) map_file).2.1.modules_ m.code_file).isSome
      = true := by
  cases hfind : mapFind st.modules_ m.code_file with
  | some v =>
    have hs : (mapFind st.modules_ m.code_file).isSome = true := by rw [hfind]; rfl
    rw [loadModule_dup ops fs st m map_file hs] at h
    exact absurd h (by simp)
  | none =>
    cases hread : ReadSymbolFile fs map_file with
    | none =>
      have hs : (mapFind st.modules_ m.code_file).isSome = false := by rw [hfind]; rfl
      simp [LoadModule, hs, hread] at h
    | some data =>
      rw [loadModule_eq ops fs st m map_file data hfind hread] at h ⊢
      exact loadUsingMemoryBuffer_true_find ops _ m _ h

lemma loadMapBuffer_true_find {Mod E W C : Type} (ops : ExternalOps Mod E W C)
    (st : Resolver Mod) (m : CodeModule) (map_buffer : Bytes)
    (h : (LoadModuleUsingMapBuffer ops st (some m) map_buffer).1 = true) :
    (mapFind (LoadModuleUsingMapBuffer ops st (some m) map_buffer).2.1.modules_
      m.code_file).isSome = true :=
  loadUsingMemoryBuffer_true_find ops { st with nextBufId := st.nextBufId + 1 } m
    ⟨st.nextBufId, map_buffer ++ [0]⟩ h

lemma readSymbolFile_success (fs : FS) (map_file : Bytes) (file_size : Nat)
    (hstat : fs.statSize map_file = some file_size)
    (hopen : fs.fopenOk map_file = true)
    (hread : ((fs.readData map_file).take file_size).length = file_size) :
    ReadSymbolFile fs map_file = some ((fs.readData map_file).take file_size ++ [0]) := by
  simp [ReadSymbolFile, hstat, hopen, hread]

lemma loadMapBuffer_success {Mod E W C : Type} (ops : ExternalOps Mod E W C)
    (st : Resolver Mod) (m : CodeModule) (map_buffer : Bytes) (loaded : Mod)
    (hfind : mapFind st.modules_ m.code_file = none)
    (hing : ops.LoadMapFromMemory (ops.CreateModule m.code_file) (map_buffer ++ [0])
      = some loaded) :
    LoadModuleUsingMapBuffer ops st (some m) map_buffer
      = (true,
         { modules_ := mapInsert st.modules_ m.code_file loaded,
           nextBufId := st.nextBufId + 1 },
         [Event.storeDataBeforeLoad (some m) st.nextBufId (map_buffer ++ [0]),
          Event.loadMapFromMemory st.nextBufId (map_buffer ++ [0]),
          Event.deleteDataAfterLoad st.nextBufId (map_buffer ++ [0])]) := by
  simp [LoadModuleUsingMapBuffer,
    loadUsingMemoryBuffer_success ops { st with nextBufId := st.nextBufId + 1 } m
      ⟨st.nextBufId, map_buffer ++ [0]⟩ loaded hfind hing]

lemma loadModule_success {Mod E W C : Type} (ops : ExternalOps Mod E W C) (fs : FS)
    (st : Resolver Mod) (m : CodeModule) (map_file : Bytes) (data : List Nat) (loaded : Mod)
    (hfind : mapFind st.modules_ m.code_file = none)
    (hread : ReadSymbolFile fs map_file = some data)
    (hing : ops.LoadMapFromMemory (ops.CreateModule m.code_file) data = some loaded) :
    LoadModule ops fs st (some m) map_file
      = (true,
         { modules_ := mapInsert st.modules_ m.code_file loaded,
           nextBufId := st.nextBufId + 1 },
         [Event.storeDataBeforeLoad (some m) st.nextBufId data,
          Event.loadMapFromMemory st.nextBufId data,
          Event.deleteDataAfterLoad st.nextBufId data]) := by
  rw [loadModule_eq ops fs st m map_file data hfind hread,
    loadUsingMemoryBuffer_success ops { st with nextBufId := st.nextBufId + 1 } m
      ⟨st.nextBufId, data⟩ loaded hfind hing]

lemma fillSourceLineInfo_congr {Mod E W C : Type} (ops : ExternalOps Mod E W C)
    {st st' : Resolver Mod} (h : st'.modules_ = st.modules_) (frame : StackFrame E) :
    FillSourceLineInfo ops st' frame = FillSourceLineInfo ops st frame := by
  cases hm : frame.module with
  | none => simp [FillSourceLineInfo, hm]
  | some m => simp [FillSourceLineInfo, hm, h]

lemma findWindowsFrameInfo_congr {Mod E W C : Type} (ops : ExternalOps Mod E W C)
    {st st' : Resolver Mod} (h : st'.modules_ = st.modules_) (frame : StackFrame E) :
    FindWindowsFrameInfo ops st' frame = (FindWindowsFrameInfo ops st frame : Option W) := by
  cases hm : frame.module with
  | none => simp [FindWindowsFrameInfo, hm]
  | some m => simp [FindWindowsFrameInfo, hm, h]

lemma findCFIFrameInfo_congr {Mod E W C : Type} (ops : ExternalOps Mod E W C)
    {st st' : Resolver Mod} (h : st'.modules_ = st.modules_) (frame : StackFrame E) :
    FindCFIFrameInfo ops st' frame = (FindCFIFrameInfo ops st frame : Option C) := by
  cases hm : frame.module with
  | none => simp [FindCFIFrameInfo, hm]
  | some m => simp [FindCFIFrameInfo, hm, h]

/-- C1: at-most-once invariant.  After a load of key K has succeeded through
either public entry point (`LoadModule` by file path or
`LoadModuleUsingMapBuffer` by in-memory bytes), every subsequent load of K —
by either entry point, with any file or buffer, valid or invalid content —
returns false and leaves the module table, hence the `ParsedModule` stored
under K and all of K's (and everyone's) resolution results, unchanged. -/
theorem c1_at_most_once {Mod E W C : Type} (ops : ExternalOps Mod E W C)
    (fs fs' : FS) (st0 st1 : Resolver Mod) (m m' : CodeModule)
    (path0 buf0 path map_buffer : Bytes) (frame : StackFrame E)
    (hfirst :
      ((LoadModule ops fs st0 (some m) path0).1 = true
        ∧ st1 = (LoadModule ops fs st0 (some m) path0).2.1)
      ∨ ((LoadModuleUsingMapBuffer ops st0 (some m) buf0).1 = true
        ∧ st1 = (LoadModuleUsingMapBuffer ops st0 (some m) buf0).2.1))
    (hkey : c_str m'.code_file = c_str m.code_file) :
    ((LoadModule ops fs' st1 (some m') path).1 = false
      ∧ (LoadModule ops fs' st1 (some m') path).2.1 = st1)
    ∧ ((LoadModuleUsingMapBuffer ops st1 (some m') map_buffer).1 = false
      ∧ (LoadModuleUsingMapBuffer ops st1 (some m') map_buffer).2.1.modules_
          = st1.modules_)
    ∧ FillSourceLineInfo ops (LoadModuleUsingMapBuffer ops st1 (some m') map_buffer).2.1
        frame = FillSourceLineInfo ops st1 frame
    ∧ FindWindowsFrameInfo ops (LoadModuleUsingMapBuffer ops st1 (some m') map_buffer).2.1
        frame = FindWindowsFrameInfo ops st1 frame
    ∧ FindCFIFrameInfo ops (LoadModuleUsingMapBuffer ops st1 (some m') map_buffer).2.1
        frame = FindCFIFrameInfo ops st1 frame := by
  have hfind1 : (mapFind st1.modules_ m.code_file).isSome = true := by
    rcases hfirst with ⟨h1, h2⟩ | ⟨h1, h2⟩
    · rw [h2]
      exact loadModule_true_find ops fs st0 m path0 h1
    · rw [h2]
      exact loadMapBuffer_true_find ops st0 m buf0 h1
  have hfind1m : (mapFind st1.modules_ m'.code_file).isSome = true := by
    rw [mapFind_congr st1.modules_ hkey]
    exact hfind1
  have hA := loadModule_dup ops fs' st1 m' path hfind1m
  have hB := loadMapBuffer_dup ops st1 m' map_buffer hfind1m
  have hBm : (LoadModuleUsingMapBuffer ops st1 (some m') map_buffer).2.1.modules_
      = st1.modules_ := by rw [hB]
  refine ⟨⟨?_, ?_⟩, ⟨?_, hBm⟩, ?_, ?_, ?_⟩
  · rw [hA]
  · rw [hA]
  · rw [hB]
  · exact fillSourceLineInfo_congr ops hBm frame
  · exact findWindowsFrameInfo_congr ops hBm frame
  · exact findCFIFrameInfo_congr ops hBm frame

/-- C1 witness: load key [5] from a buffer, then a file-path load of the
key-equal identity [5,0,9] (same bytes up to the first nul) fails. -/
theorem c1_witness :
    ((LoadModuleUsingMapBuffer demoOps ⟨[], 0⟩ (some ⟨[5]⟩) [77]).1 = true
      ∧ (⟨[([5], [77, 0])], 1⟩ : Resolver (List Nat))
          = (LoadModuleUsingMapBuffer demoOps ⟨[], 0⟩ (some ⟨[5]⟩) [77]).2.1)
    ∧ c_str (CodeModule.mk [5, 0, 9]).code_file = c_str (CodeModule.mk [5]).code_file
    ∧ (LoadModule demoOps demoFS ⟨[([5], [77, 0])], 1⟩ (some ⟨[5, 0, 9]⟩) [1]).1 = false :=
  ⟨⟨by decide, by decide⟩, by decide,
    (c1_at_most_once demoOps demoFS demoFS ⟨[], 0⟩ ⟨[([5], [77, 0])], 1⟩ ⟨[5]⟩ ⟨[5, 0, 9]⟩
      [] [77] [1] [8] (⟨none, 0⟩ : StackFrame Nat)
      (Or.inr ⟨by decide, by decide⟩) (by decide)).1.1⟩

/-- C2: buffer lifecycle pairing.  Every call to `LoadModuleUsingMapBuffer` —
duplicate key or not, ingest success or failure — fires `StoreDataBeforeLoad`
exactly once and `DeleteDataAfterLoad` exactly once on the buffer the call
allocates, the store first (head of the trace) and the delete last; and the
resolver retains no reference to that buffer: the module table after the
call is either unchanged or extended by one entry whose value is a function
of the byte contents of `map_buffer` alone. -/
theorem c2_buffer_lifecycle {Mod E W C : Type} (ops : ExternalOps Mod E W C)
    (st : Resolver Mod) (module : Option CodeModule) (map_buffer : Bytes) :
    countStore (LoadModuleUsingMapBuffer ops st module map_buffer).2.2 st.nextBufId = 1
    ∧ countDelete (LoadModuleUsingMapBuffer ops st module map_buffer).2.2 st.nextBufId = 1
    ∧ (LoadModuleUsingMapBuffer ops st module map_buffer).2.2.head?
        = some (Event.storeDataBeforeLoad module st.nextBufId (map_buffer ++ [0]))
    ∧ (LoadModuleUsingMapBuffer ops st module map_buffer).2.2.getLast?
        = some (Event.deleteDataAfterLoad st.nextBufId (map_buffer ++ [0]))
    ∧ ((LoadModuleUsingMapBuffer ops st module map_buffer).2.1.modules_ = st.modules_
       ∨ ∃ m loaded, module = some m
          ∧ ops.LoadMapFromMemory (ops.CreateModule m.code_file) (map_buffer ++ [0])
              = some loaded
          ∧ (LoadModuleUsingMapBuffer ops st module map_buffer).2.1.modules_
              = mapInsert st.modules_ m.code_file loaded) := by
  cases module with
  | none =>
    refine ⟨?_, ?_, ?_, ?_, Or.inl ?_⟩ <;>
      simp [LoadModuleUsingMapBuffer, LoadModuleUsingMemoryBuffer, countStore, countDelete]
  | some m =>
    cases hfind : mapFind st.modules_ m.code_file with
    | some v =>
      have hs : (mapFind st.modules_ m.code_file).isSome = true := by rw [hfind]; rfl
      rw [loadMapBuffer_dup ops st m map_buffer hs]
      refine ⟨?_, ?_, ?_, ?_, Or.inl ?_⟩ <;> simp [countStore, countDelete]
    | none =>
      cases hing : ops.LoadMapFromMemory (ops.CreateModule m.code_file) (map_buffer ++ [0])
        with
      | none =>
        have hsh := loadUsingMemoryBuffer_ingest_fail ops
          { st with nextBufId := st.nextBufId + 1 } m ⟨st.nextBufId, map_buffer ++ [0]⟩
          hfind hing
        refine ⟨?_, ?_, ?_, ?_, Or.inl ?_⟩ <;>
          simp [LoadModuleUsingMapBuffer, hsh, countStore, countDelete]
      | some loaded =>
        rw [loadMapBuffer_success ops st m map_buffer loaded hfind hing]
        refine ⟨?_, ?_, ?_, ?_, Or.inr ⟨m, loaded, rfl, hing, ?_⟩⟩ <;>
          simp [countStore, countDelete]

/-- C3: unknown-module resolution is a no-op.  On a frame whose module
reference is null or whose key is absent from the table,
`FillSourceLineInfo` returns the frame with every field at its input value,
and `FindWindowsFrameInfo` / `FindCFIFrameInfo` return none. -/
theorem c3_unknown_module_noop {Mod E W C : Type} (ops : ExternalOps Mod E W C)
    (st : Resolver Mod) (frame : StackFrame E)
    (h : frame.module = none
      ∨ ∃ m, frame.module = some m ∧ mapFind st.modules_ m.code_file = none) :
    FillSourceLineInfo ops st frame = frame
    ∧ FindWindowsFrameInfo ops st frame = (none : Option W)
    ∧ FindCFIFrameInfo ops st frame = (none : Option C) := by
  rcases h with hm | ⟨m, hm, hfind⟩
  · exact ⟨by simp [FillSourceLineInfo, hm], by simp [FindWindowsFrameInfo, hm],
      by simp [FindCFIFrameInfo, hm]⟩
  · exact ⟨by simp [FillSourceLineInfo, hm, hfind],
      by simp [FindWindowsFrameInfo, hm, hfind],
      by simp [FindCFIFrameInfo, hm, hfind]⟩

/-- C3 witness: a frame whose module key [9] was never loaded is returned
unchanged and both frame-info queries return none. -/
theorem c3_witness :
    ((⟨some ⟨[9]⟩, 0⟩ : StackFrame Nat).module = none
      ∨ ∃ m, (⟨some ⟨[9]⟩, 0⟩ : StackFrame Nat).module = some m
          ∧ mapFind (⟨[], 0⟩ : Resolver (List Nat)).modules_ m.code_file = none)
    ∧ FillSourceLineInfo demoOps ⟨[], 0⟩ (⟨some ⟨[9]⟩, 0⟩ : StackFrame Nat)
        = ⟨some ⟨[9]⟩, 0⟩
    ∧ FindWindowsFrameInfo demoOps (⟨[], 0⟩ : Resolver (List Nat))
        (⟨some ⟨[9]⟩, 0⟩ : StackFrame Nat) = none
    ∧ FindCFIFrameInfo demoOps (⟨[], 0⟩ : Resolver (List Nat))
        (⟨some ⟨[9]⟩, 0⟩ : StackFrame Nat) = none :=
  have h := c3_unknown_module_noop demoOps ⟨[], 0⟩ (⟨some ⟨[9]⟩, 0⟩ : StackFrame Nat)
    (Or.inr ⟨⟨[9]⟩, rfl, rfl⟩)
  ⟨Or.inr ⟨⟨[9]⟩, rfl, rfl⟩, h.1, h.2.1, h.2.2⟩

/-- C4: unload clears state and permits reload.  After `UnloadModule` on key
K (the table well-formed, as `std::map` guarantees), `HasModule` is false
for any key-equal identity, and a subsequent load of that key with valid
symbol data — by in-memory buffer, or by a file that stats, opens, reads in
full and ingests successfully — returns true. -/
theorem c4_unload_clears_state {Mod E W C : Type} (ops : ExternalOps Mod E W C) (fs : FS)
    (st : Resolver Mod) (m m' : CodeModule) (map_buffer path : Bytes)
    (file_size : Nat) (md md2 : Mod)
    (hwf : WFmap st.modules_)
    (hkey : c_str m'.code_file = c_str m.code_file)
    (hingest : ops.LoadMapFromMemory (ops.CreateModule m'.code_file) (map_buffer ++ [0])
      = some md)
    (hstat : fs.statSize path = some file_size)
    (hopen : fs.fopenOk path = true)
    (hread : ((fs.readData path).take file_size).length = file_size)
    (hingest2 : ops.LoadMapFromMemory (ops.CreateModule m'.code_file)
      ((fs.readData path).take file_size ++ [0]) = some md2) :
    HasModule (UnloadModule st (some m)).1 (some m') = false
    ∧ (LoadModuleUsingMapBuffer ops (UnloadModule st (some m)).1 (some m') map_buffer).1
        = true
    ∧ (LoadModule ops fs (UnloadModule st (some m)).1 (some m') path).1 = true := by
  have hafter : mapFind (UnloadModule st (some m)).1.modules_ m'.code_file = none := by
    cases hfind : mapFind st.modules_ m.code_file with
    | some v =>
      have hs : (mapFind st.modules_ m.code_file).isSome = true := by rw [hfind]; rfl
      simp only [UnloadModule, hs, if_true]
      exact mapFind_erase_of_wf hwf hkey.symm
    | none =>
      have hs : (mapFind st.modules_ m.code_file).isSome = false := by rw [hfind]; rfl
      simp only [UnloadModule, hs, Bool.false_eq_true, if_false]
      rw [mapFind_congr _ hkey]
      exact hfind
  refine ⟨?_, ?_, ?_⟩
  · simp [HasModule, hafter]
  · rw [loadMapBuffer_success ops _ m' map_buffer md hafter hingest]
  · rw [loadModule_success ops fs _ m' path _ md2 hafter
      (readSymbolFile_success fs path file_size hstat hopen hread) hingest2]

/-- C4 witness: unload key [5] from a table holding it, then reload the same
key both from a buffer and from the valid symbol file at path [1]. -/
theorem c4_witness :
    WFmap ([([5], [77, 1])] : List (Bytes × List Nat))
    ∧ HasModule (UnloadModule (⟨[([5], [77, 1])], 3⟩ : Resolver (List Nat))
        (some ⟨[5]⟩)).1 (some ⟨[5]⟩) = false
    ∧ (LoadModuleUsingMapBuffer demoOps
        (UnloadModule (⟨[([5], [77, 1])], 3⟩ : Resolver (List Nat)) (some ⟨[5]⟩)).1
        (some ⟨[5]⟩) [77, 2]).1 = true
    ∧ (LoadModule demoOps demoFS
        (UnloadModule (⟨[([5], [77, 1])], 3⟩ : Resolver (List Nat)) (some ⟨[5]⟩)).1
        (some ⟨[5]⟩) [1]).1 = true :=
  have h := c4_unload_clears_state demoOps demoFS ⟨[([5], [77, 1])], 3⟩ ⟨[5]⟩ ⟨[5]⟩
    [77, 2] [1] 3 [77, 2, 0] [77, 10, 11, 0]
    (by simp [WFmap]) (by decide) (by decide) (by decide) (by decide) (by decide)
    (by decide)
  ⟨by simp [WFmap], h.1, h.2.1, h.2.2⟩

/-- C5 counterexample: the claim as stated fails at the concrete input
"null frame pointer": `FillSourceLineInfo` (source line 241) dereferences
`frame->module` with no null check on `frame`, so the call on a null frame
does not complete and report a result — modelled by the outer `none` of
`FillSourceLineInfoP`. -/
theorem c5_counterexample :
    (FillSourceLineInfoP demoOps (⟨[], 0⟩ : Resolver (List Nat)) none).isSome = false :=
  rfl

/-- C5 (amended): every registry operation completes and reports failure as
a boolean or optional result for every input whose frame pointer is
non-null; a null module reference is tolerated by every operation that
takes one.  (The claim's "including null pointer arguments" fails only for
the frame pointer of the three query operations, which is dereferenced
without a check.) -/
theorem c5_total_failure_reporting {Mod E W C : Type} (ops : ExternalOps Mod E W C)
    (fs : FS) (st : Resolver Mod) (map_file map_buffer : Bytes) (frame : StackFrame E) :
    LoadModule ops fs st none map_file = (false, st, [])
    ∧ (LoadModuleUsingMapBuffer ops st none map_buffer).1 = false
    ∧ (LoadModuleUsingMapBuffer ops st none map_buffer).2.1.modules_ = st.modules_
    ∧ UnloadModule st none = (st, [])
    ∧ HasModule st none = false
    ∧ (FillSourceLineInfoP ops st (some frame)).isSome = true
    ∧ ((FindWindowsFrameInfoP ops st (some frame) : Option (Option W))).isSome = true
    ∧ ((FindCFIFrameInfoP ops st (some frame) : Option (Option C))).isSome = true := by
  refine ⟨rfl, ?_, ?_, rfl, rfl, rfl, rfl, rfl⟩ <;>
    simp [LoadModuleUsingMapBuffer, LoadModuleUsingMemoryBuffer]

/-- C6: nul-termination of the ingest buffer.  On the file path, a
successful `ReadSymbolFile` yields exactly the bytes read plus one trailing
nul, and that is the only buffer ever handed to `LoadMapFromMemory` by
`LoadModule`; on the in-memory path, every buffer handed to
`LoadMapFromMemory` is `map_buffer ++ [0]` — one byte longer than the
source content, final byte nul, embedded nuls preserved. -/
theorem c6_nul_termination {Mod E W C : Type} (ops : ExternalOps Mod E W C) (fs : FS)
    (st : Resolver Mod) (module : Option CodeModule) (map_file map_buffer : Bytes)
    (data : List Nat)
    (hread : ReadSymbolFile fs map_file = some data) :
    (∃ file_size, fs.statSize map_file = some file_size
      ∧ data = (fs.readData map_file).take file_size ++ [0]
      ∧ data.length = file_size + 1
      ∧ data.getLast? = some 0)
    ∧ (∀ b ∈ ingestBuffers (LoadModule ops fs st module map_file).2.2, b = data)
    ∧ (∀ b ∈ ingestBuffers (LoadModuleUsingMapBuffer ops st module map_buffer).2.2,
        b = map_buffer ++ [0]
        ∧ b.length = map_buffer.length + 1
        ∧ b.getLast? = some 0) := by
  have hfirst : ∃ file_size, fs.statSize map_file = some file_size
      ∧ data = (fs.readData map_file).take file_size ++ [0]
      ∧ ((fs.readData map_file).take file_size).length = file_size := by
    cases hstat : fs.statSize map_file with
    | none => simp [ReadSymbolFile, hstat] at hread
    | some file_size =>
      simp only [ReadSymbolFile, hstat] at hread
      by_cases hopen : fs.fopenOk map_file = true
      · rw [if_pos hopen] at hread
        by_cases hlen : ((fs.readData map_file).take file_size).length = file_size
        · rw [if_neg (fun hcon => hcon hlen), Option.some.injEq] at hread
          exact ⟨file_size, rfl, hread.symm, hlen⟩
        · rw [if_pos hlen] at hread
          cases hread
      · rw [if_neg hopen] at hread
        cases hread
  obtain ⟨file_size, hstat, hdata, hlen⟩ := hfirst
  refine ⟨⟨file_size, hstat, hdata, ?_, ?_⟩, ?_, ?_⟩
  · simp [hdata, List.length_append, hlen]
  · rw [hdata]
    exact List.getLast?_concat _
  · intro b hb
    cases module with
    | none => simp [LoadModule, ingestBuffers] at hb
    | some m =>
      cases hfind : mapFind st.modules_ m.code_file with
      | some v =>
        have hs : (mapFind st.modules_ m.code_file).isSome = true := by rw [hfind]; rfl
        rw [loadModule_dup ops fs st m map_file hs] at hb
        simp [ingestBuffers] at hb
      | none =>
        rw [loadModule_eq ops fs st m map_file data hfind hread] at hb
        cases hing : ops.LoadMapFromMemory (ops.CreateModule m.code_file) data with
        | none =>
          rw [loadUsingMemoryBuffer_ingest_fail ops
            { st with nextBufId := st.nextBufId + 1 } m ⟨st.nextBufId, data⟩
            hfind hing] at hb
          simpa [ingestBuffers] using hb
        | some loaded =>
          rw [loadUsingMemoryBuffer_success ops
            { st with nextBufId := st.nextBufId + 1 } m ⟨st.nextBufId, data⟩ loaded
            hfind hing] at hb
          simpa [ingestBuffers] using hb
  · intro b hb
    have hbuf : b = map_buffer ++ [0] := by
      cases module with
      | none =>
        simp [LoadModuleUsingMapBuffer, LoadModuleUsingMemoryBuffer, ingestBuffers] at hb
      | some m =>
        cases hfind : mapFind st.modules_ m.code_file with
        | some v =>
          have hs : (mapFind st.modules_ m.code_file).isSome = true := by rw [hfind]; rfl
          rw [loadMapBuffer_dup ops st m map_buffer hs] at hb
          simp [ingestBuffers] at hb
        | none =>
          cases hing : ops.LoadMapFromMemory (ops.CreateModule m.code_file)
            (map_buffer ++ [0]) with
          | none =>
            have hsh := loadUsingMemoryBuffer_ingest_fail ops
              { st with nextBufId := st.nextBufId + 1 } m
              ⟨st.nextBufId, map_buffer ++ [0]⟩ hfind hing
            rw [LoadModuleUsingMapBuffer] at hb
            simp only [hsh] at hb
            simpa [ingestBuffers] using hb
          | some loaded =>
            rw [loadMapBuffer_success ops st m map_buffer loaded hfind hing] at hb
            simpa [ingestBuffers] using hb
    refine ⟨hbuf, ?_, ?_⟩
    · simp [hbuf, List.length_append]
    · rw [hbuf]
      exact List.getLast?_concat _

/-- C6 witness: file [1] holds bytes [77, 10, 11]; the ingest buffer is that
content plus a trailing nul, one byte longer. -/
theorem c6_witness :
    ReadSymbolFile demoFS [1] = some [77, 10, 11, 0]
    ∧ (∃ file_size, demoFS.statSize [1] = some file_size
        ∧ [77, 10, 11, 0] = (demoFS.readData [1]).take file_size ++ [0]
        ∧ ([77, 10, 11, 0] : List Nat).length = file_size + 1
        ∧ ([77, 10, 11, 0] : List Nat).getLast? = some 0) :=
  ⟨by decide,
    (c6_nul_termination demoOps demoFS ⟨[], 0⟩ (some ⟨[5]⟩) [1] [77, 0, 9]
      [77, 10, 11, 0] (by decide)).1⟩

/-- C7: short-read detection.  When `stat` reports a size but fewer bytes
are actually readable, `ReadSymbolFile` fails and `LoadModule` — for any
module argument — returns false with the module table (indeed the whole
resolver state) unchanged and no hooks fired. -/
theorem c7_short_read {Mod E W C : Type} (ops : ExternalOps Mod E W C) (fs : FS)
    (st : Resolver Mod) (module : Option CodeModule) (map_file : Bytes) (file_size : Nat)
    (hstat : fs.statSize map_file = some file_size)
    (hopen : fs.fopenOk map_file = true)
    (hshort : ((fs.readData map_file).take file_size).length ≠ file_size) :
    ReadSymbolFile fs map_file = none
    ∧ LoadModule ops fs st module map_file = (false, st, []) := by
  have hr : ReadSymbolFile fs map_file = none := by
    simp only [ReadSymbolFile, hstat]
    rw [if_pos hopen, if_pos hshort]
  refine ⟨hr, ?_⟩
  cases module with
  | none => rfl
  | some m =>
    by_cases hs : (mapFind st.modules_ m.code_file).isSome = true
    · exact loadModule_dup ops fs st m map_file hs
    · rw [Bool.not_eq_true] at hs
      simp [LoadModule, hs, hr]

/-- C7 witness: path [2] stats at 5 bytes but only 2 are readable; the load
fails and the resolver state is untouched. -/
theorem c7_witness :
    demoFS.statSize [2] = some 5
    ∧ ((demoFS.readData [2]).take 5).length ≠ 5
    ∧ ReadSymbolFile demoFS [2] = none
    ∧ LoadModule demoOps demoFS (⟨[], 0⟩ : Resolver (List Nat)) (some ⟨[5]⟩) [2]
        = (false, ⟨[], 0⟩, []) :=
  have h := c7_short_read demoOps demoFS (⟨[], 0⟩ : Resolver (List Nat)) (some ⟨[5]⟩)
    [2] 5 (by decide) (by decide) (by decide)
  ⟨by decide, by decide, h.1, h.2⟩

/-- C8: UnloadModule hook discipline.  A null module reference changes
nothing and fires no hook; a non-null reference fires `DeleteDataUnload`
on it exactly once — the whole trace of the call — and when the key is not
in the table the resolver state is unchanged. -/
theorem c8_unload_hook_discipline {Mod : Type} (st : Resolver Mod) (m : CodeModule) :
    UnloadModule st (none : Option CodeModule) = (st, [])
    ∧ (UnloadModule st (some m)).2 = [Event.deleteDataUnload m]
    ∧ (mapFind st.modules_ m.code_file = none → (UnloadModule st (some m)).1 = st) := by
  refine ⟨rfl, rfl, ?_⟩
  intro h
  have hs : (mapFind st.modules_ m.code_file).isSome = false := by rw [h]; rfl
  simp [UnloadModule, hs]

/-- C8 witness: unloading absent key [9] fires the hook once and leaves the
table, holding key [3], unchanged. -/
theorem c8_witness :
    mapFind (⟨[([3], [77])], 5⟩ : Resolver (List Nat)).modules_
      (CodeModule.mk [9]).code_file = none
    ∧ (UnloadModule (⟨[([3], [77])], 5⟩ : Resolver (List Nat)) (some ⟨[9]⟩)).2
        = [Event.deleteDataUnload ⟨[9]⟩]
    ∧ (UnloadModule (⟨[([3], [77])], 5⟩ : Resolver (List Nat)) (some ⟨[9]⟩)).1
        = ⟨[([3], [77])], 5⟩ :=
  have h := c8_unload_hook_discipline (⟨[([3], [77])], 5⟩ : Resolver (List Nat)) ⟨[9]⟩
  ⟨by decide, h.2.1, h.2.2 (by decide)⟩

/-- C9: hook asymmetry on a duplicate key.  `LoadModule` returns false
before reading the file, with the state untouched and an empty hook trace;
`LoadModuleUsingMapBuffer` on the same duplicate key still allocates a
nul-terminated copy (the buffer counter advances), fires
`StoreDataBeforeLoad` and then `DeleteDataAfterLoad` on it, and returns
false. -/
theorem c9_duplicate_hook_asymmetry {Mod E W C : Type} (ops : ExternalOps Mod E W C)
    (fs : FS) (st : Resolver Mod) (m : CodeModule) (map_file map_buffer : Bytes)
    (hdup : (mapFind st.modules_ m.code_file).isSome = true) :
    LoadModule ops fs st (some m) map_file = (false, st, [])
    ∧ LoadModuleUsingMapBuffer ops st (some m) map_buffer
        = (false, { st with nextBufId := st.nextBufId + 1 },
           [Event.storeDataBeforeLoad (some m) st.nextBufId (map_buffer ++ [0]),
            Event.deleteDataAfterLoad st.nextBufId (map_buffer ++ [0])]) :=
  ⟨loadModule_dup ops fs st m map_file hdup, loadMapBuffer_dup ops st m map_buffer hdup⟩

/-- C9 witness: with key [5] already loaded, the file-path load fires no
hook while the buffer load copies, stores and deletes. -/
theorem c9_witness :
    (mapFind (⟨[([5], [77])], 0⟩ : Resolver (List Nat)).modules_
      (CodeModule.mk [5]).code_file).isSome = true
    ∧ LoadModule demoOps demoFS (⟨[([5], [77])], 0⟩ : Resolver (List Nat))
        (some ⟨[5]⟩) [1] = (false, ⟨[([5], [77])], 0⟩, [])
    ∧ LoadModuleUsingMapBuffer demoOps (⟨[([5], [77])], 0⟩ : Resolver (List Nat))
        (some ⟨[5]⟩) [8]
        = (false, ⟨[([5], [77])], 1⟩,
           [Event.storeDataBeforeLoad (some ⟨[5]⟩) 0 [8, 0],
            Event.deleteDataAfterLoad 0 [8, 0]]) :=
  have h := c9_duplicate_hook_asymmetry demoOps demoFS
    (⟨[([5], [77])], 0⟩ : Resolver (List Nat)) ⟨[5]⟩ [1] [8] (by decide)
  ⟨by decide, h.1, h.2⟩

/-- C10: key-equality coarseness.  Module keys are compared with
`strcmp(s.c_str(), ...)`, so two code-file strings identical up to the
first embedded nul but different afterwards are the same key: the
comparator orders neither before the other, `HasModule` holds for one
whenever it holds for the other, and loading the other fails as a
duplicate. -/
theorem c10_key_equality_coarseness {Mod E W C : Type} (ops : ExternalOps Mod E W C)
    (fs : FS) (st : Resolver Mod) (m1 m2 : CodeModule) (map_file map_buffer : Bytes)
    (hc : c_str m1.code_file = c_str m2.code_file)
    (hne : m1.code_file ≠ m2.code_file)
    (hload : HasModule st (some m1) = true) :
    CompareString m1.code_file m2.code_file = false
    ∧ CompareString m2.code_file m1.code_file = false
    ∧ HasModule st (some m2) = true
    ∧ LoadModule ops fs st (some m2) map_file = (false, st, [])
    ∧ (LoadModuleUsingMapBuffer ops st (some m2) map_buffer).1 = false := by
  have hkv : keyEquiv m1.code_file m2.code_file = true := (keyEquiv_eq_true_iff _ _).2 hc
  rw [keyEquiv, Bool.and_eq_true, Bool.not_eq_true', Bool.not_eq_true'] at hkv
  have hfind1 : (mapFind st.modules_ m1.code_file).isSome = true := hload
  have hfind2 : (mapFind st.modules_ m2.code_file).isSome = true := by
    rw [← mapFind_congr st.modules_ hc]
    exact hfind1
  refine ⟨hkv.1, hkv.2, hfind2, loadModule_dup ops fs st m2 map_file hfind2, ?_⟩
  rw [loadMapBuffer_dup ops st m2 map_buffer hfind2]

/-- C10 witness: [97,0,98] and [97,0,99] agree before the embedded nul and
differ after it; loading the first makes the second a duplicate. -/
theorem c10_witness :
    c_str (CodeModule.mk [97, 0, 98]).code_file = c_str (CodeModule.mk [97, 0, 99]).code_file
    ∧ (CodeModule.mk [97, 0, 98]).code_file ≠ (CodeModule.mk [97, 0, 99]).code_file
    ∧ HasModule (⟨[([97, 0, 98], [77])], 0⟩ : Resolver (List Nat)) (some ⟨[97, 0, 98]⟩)
        = true
    ∧ HasModule (⟨[([97, 0, 98], [77])], 0⟩ : Resolver (List Nat)) (some ⟨[97, 0, 99]⟩)
        = true
    ∧ (LoadModuleUsingMapBuffer demoOps (⟨[([97, 0, 98], [77])], 0⟩ : Resolver (List Nat))
        (some ⟨[97, 0, 99]⟩) [77, 3]).1 = false :=
  have h := c10_key_equality_coarseness demoOps demoFS
    (⟨[([97, 0, 98], [77])], 0⟩ : Resolver (List Nat)) ⟨[97, 0, 98]⟩ ⟨[97, 0, 99]⟩
    [1] [77, 3] (by decide) (by decide) (by decide)
  ⟨by decide, by decide, by decide, h.2.2.1, h.2.2.2.2⟩

end SourceLineResolverBase
